import Mathlib

/-!
Verification of `get_sra.py` (FredHutch/docker-sra): a shallow embedding in
Lean 4 of the download–normalize–publish pipeline, with theorems settling
the specification claims.

The Python source is a single script.  Its pure/control-flow content is
embedded as executable Lean functions; external subprocesses, the
filesystem and the logger appear as explicit oracles, traces, or record
fields, as documented on each definition.
-/

namespace GetSRA

instance {ε α : Type} [DecidableEq ε] [DecidableEq α] : DecidableEq (Except ε α) := fun a b =>
  match a, b with
  | .error x, .error y =>
    if h : x = y then .isTrue (h ▸ rfl) else .isFalse (fun hc => h (Except.error.inj hc))
  | .ok x, .ok y =>
    if h : x = y then .isTrue (h ▸ rfl) else .isFalse (fun hc => h (Except.ok.inj hc))
  | .error _, .ok _ => .isFalse (fun hc => Except.noConfusion hc)
  | .ok _, .error _ => .isFalse (fun hc => Except.noConfusion hc)

/-! ## Read-pair interleaver (`interleave_fastq`, lines 81–97)

A text file opened with `open(fp, "rt")` is modelled as the list of the
lines `readline` yields while inside the file: each such line is a
nonempty string (it contains at least its terminating newline, or the
characters of an unterminated final line); once the file is exhausted,
`readline` returns the empty string `""` forever. -/

/-- `readline` on a stream with remaining lines `ls`: the next line, or
`""` at end of file. -/
def readline : List String → String
  | [] => ""
  | l :: _ => l

/-- The four lines obtained by `[f.readline() for ix in range(4)]` when
the stream's remaining lines are `ls` (missing lines read as `""`). -/
def read4 (ls : List String) : List String :=
  [readline ls, readline (ls.drop 1), readline (ls.drop 2), readline (ls.drop 3)]

/-- The loop body of `interleave_fastq`: reads 4 lines from each stream;
breaks successfully when any forward line is `""`; the
`assert any([l == '' for l in rev_read]) is False` on line 91 becomes the
error case (`AssertionError`, the TruncatedMatePair signal).  Returns the
list of strings written by the two `fo.write` calls (each a `''.join` of
one 4-line record), together with the final `nreads` counter. -/
def interleaveGo : (fwd : List String) → (rev : List String) → Except Unit (List String × Nat)
  | a :: b :: c :: d :: t, rev =>
    let fr := read4 (a :: b :: c :: d :: t)
    let rr := read4 rev
    if fr.any (fun l => l = "") then
      .ok ([], 0)
    else if rr.any (fun l => l = "") then
      .error ()
    else
      match interleaveGo t (rev.drop 4) with
      | .ok (rest, n) => .ok (String.join fr :: String.join rr :: rest, n + 1)
      | .error e => .error e
  | _, _ =>
    -- fewer than 4 forward lines remain, so `read4` pads with `""` and the
    -- break condition `any([l == '' for l in fwd_read])` holds at once
    .ok ([], 0)

/-- The observable effect of one call to `interleave_fastq`. -/
structure InterleaveEffect where
  /-- Content written to the combined output file `comb_fp`
  (concatenation of all `fo.write` payloads). -/
  output : String
  /-- The pair count in the `"Interleaved {:,} pairs of reads"` log line
  emitted by `interleave_fastq` itself (line 97). -/
  logged : Nat
  /-- The function's return value.  The Python function has no `return`
  statement, so it returns `None`, modelled as `none : Option Nat`. -/
  ret : Option Nat
  deriving Repr, DecidableEq

/-- `interleave_fastq(fwd_fp, rev_fp, comb_fp)` on streams whose lines are
`fwd` and `rev`.  `Except.error ()` is the `AssertionError` raised on
line 91 (TruncatedMatePair). -/
def interleave_fastq (fwd rev : List String) : Except Unit InterleaveEffect :=
  match interleaveGo fwd rev with
  | .ok (writes, n) => .ok ⟨String.join writes, n, none⟩
  | .error e => .error e

/-- `ls` is the line list of a FASTQ file holding exactly `n` four-line
records: `4*n` lines, none of them empty (a line yielded by `readline`
inside a file is never `""`). -/
def RecordLines (ls : List String) (n : Nat) : Prop :=
  ls.length = 4 * n ∧ ∀ l ∈ ls, l ≠ ""

instance (ls : List String) (n : Nat) : Decidable (RecordLines ls n) := by
  unfold RecordLines; infer_instance

/-- The `i`-th four-line record of a line list, joined into the string an
`fo.write(''.join(...))` call would emit for it. -/
def recordAt (ls : List String) (i : Nat) : String :=
  String.join ((ls.drop (4 * i)).take 4)

/-- The sequence of strings `interleave_fastq` writes for `n` pairs:
mate1 record 0, mate2 record 0, mate1 record 1, mate2 record 1, … -/
def interleavedWrites : List String → List String → Nat → List String
  | _, _, 0 => []
  | fwd, rev, n + 1 =>
      String.join (fwd.take 4) :: String.join (rev.take 4) ::
        interleavedWrites (fwd.drop 4) (rev.drop 4) n

/-- Splitting off the leading record of a line list with `m + 1` records. -/
theorem recordLines_cons (fwd : List String) (m : Nat) (h : RecordLines fwd (m + 1)) :
    ∃ a b c d t, fwd = a :: b :: c :: d :: t ∧ a ≠ "" ∧ b ≠ "" ∧ c ≠ "" ∧ d ≠ "" ∧
      RecordLines t m := by
  obtain ⟨hl, hne⟩ := h
  rcases fwd with _ | ⟨a, fwd⟩
  · simp at hl
  rcases fwd with _ | ⟨b, fwd⟩
  · simp at hl; omega
  rcases fwd with _ | ⟨c, fwd⟩
  · simp at hl; omega
  rcases fwd with _ | ⟨d, t⟩
  · simp at hl; omega
  refine ⟨a, b, c, d, t, rfl, hne a (by simp), hne b (by simp), hne c (by simp),
    hne d (by simp), ?_, fun l hl2 => hne l (by simp [hl2])⟩
  simp at hl; omega

/-- A line list with zero records is empty. -/
theorem recordLines_nil (ls : List String) (h : RecordLines ls 0) : ls = [] := by
  obtain ⟨hl, _⟩ := h
  cases ls with
  | nil => rfl
  | cons a t => simp at hl

/-- Full characterization of the interleave loop on well-formed record
streams: with `n1` forward records and `n2` reverse records, the loop
fails (TruncatedMatePair) exactly when the reverse stream is shorter, and
otherwise writes the `n1` interleaved pairs, silently ignoring any extra
reverse records. -/
theorem interleaveGo_spec (n1 : Nat) : ∀ (n2 : Nat) (fwd rev : List String),
    RecordLines fwd n1 → RecordLines rev n2 →
    interleaveGo fwd rev =
      if n2 < n1 then .error () else .ok (interleavedWrites fwd rev n1, n1) := by
  induction n1 with
  | zero =>
    intro n2 fwd rev hf _
    rw [recordLines_nil fwd hf]
    simp [interleaveGo, interleavedWrites]
  | succ m ih =>
    intro n2 fwd rev hf hr
    obtain ⟨a, b, c, d, t, rfl, ha, hb, hc, hd, ht⟩ := recordLines_cons fwd m hf
    cases n2 with
    | zero =>
      rw [recordLines_nil rev hr]
      simp [interleaveGo, read4, readline, ha, hb, hc, hd]
    | succ k =>
      obtain ⟨e, f, g, q, s, rfl, he, hf2, hg, hq, hs⟩ := recordLines_cons rev k hr
      have hrec := ih k t s ht hs
      simp only [interleaveGo, read4, readline, List.drop, List.any_cons, List.any_nil,
        interleavedWrites, List.take_succ_cons, List.take_zero, List.drop_succ_cons,
        List.drop_zero]
      simp only [ha, hb, hc, hd, he, hf2, hg, hq, decide_eq_true_eq, Bool.or_false,
        decide_eq_false_iff_not, not_false_eq_true, if_false]
      rw [hrec]
      by_cases hk : k < m
      · simp [hk, Nat.succ_lt_succ hk]
      · have : ¬ (k + 1 < m + 1) := by omega
        simp [hk, this]

/-- `n` interleaved pairs are `2 * n` written records. -/
theorem interleavedWrites_length (n : Nat) : ∀ (fwd rev : List String),
    (interleavedWrites fwd rev n).length = 2 * n := by
  induction n with
  | zero => intro fwd rev; simp [interleavedWrites]
  | succ m ih =>
    intro fwd rev
    simp [interleavedWrites, ih]
    omega

/-- The written records alternate: position `2*i` holds the `i`-th forward
record and position `2*i + 1` the `i`-th reverse record, each the verbatim
join of its four source lines. -/
theorem interleavedWrites_getD (n : Nat) : ∀ (i : Nat) (fwd rev : List String), i < n →
    (interleavedWrites fwd rev n).getD (2 * i) "" = recordAt fwd i ∧
    (interleavedWrites fwd rev n).getD (2 * i + 1) "" = recordAt rev i := by
  induction n with
  | zero => intro i fwd rev hi; omega
  | succ m ih =>
    intro i fwd rev hi
    cases i with
    | zero =>
      simp [interleavedWrites, recordAt]
    | succ j =>
      have h2 : 2 * (j + 1) = (2 * j + 1) + 1 := by omega
      have hdrop : ∀ ls : List String, ls.drop (4 * (j + 1)) = (ls.drop 4).drop (4 * j) := by
        intro ls
        rw [List.drop_drop]
        congr 1
        omega
      obtain ⟨ih1, ih2⟩ := ih j (fwd.drop 4) (rev.drop 4) (by omega)
      constructor
      · rw [h2]
        simp only [interleavedWrites, List.getD_cons_succ]
        rw [ih1]
        simp [recordAt, hdrop]
      · rw [h2]
        simp only [interleavedWrites, List.getD_cons_succ]
        rw [ih2]
        simp [recordAt, hdrop]

/-- Sample mate-1 lines: two 4-line records (`readline` keeps the
trailing newline of every line). -/
def sampleFwd : List String :=
  ["@a/1\n", "ACGT\n", "+\n", "IIII\n", "@b/1\n", "CCCC\n", "+\n", "JJJJ\n"]

/-- Sample mate-2 lines: two 4-line records matching `sampleFwd`. -/
def sampleRev : List String :=
  ["@a/2\n", "TTTT\n", "+\n", "KKKK\n", "@b/2\n", "GGGG\n", "+\n", "LLLL\n"]

/-- Sample mate-2 lines with one extra trailing record (three records). -/
def sampleRev3 : List String :=
  sampleRev ++ ["@c/2\n", "AAAA\n", "+\n", "MMMM\n"]

/-- Sample mate-1 lines with three records. -/
def sampleFwd3 : List String :=
  sampleFwd ++ ["@c/1\n", "GGTT\n", "+\n", "NNNN\n"]

/-- C2: on two mate streams of exactly `n` records each,
`interleave_fastq` succeeds; the output file is the concatenation of the
written records; there are exactly `2 * n` written records; and they
alternate mate1[0], mate2[0], mate1[1], mate2[1], …, each byte-identical
to the join of its four source lines. -/
theorem interleave_fastq_pairs (n : Nat) (fwd rev : List String)
    (hf : RecordLines fwd n) (hr : RecordLines rev n) :
    interleave_fastq fwd rev =
      .ok ⟨String.join (interleavedWrites fwd rev n), n, none⟩ ∧
    (interleavedWrites fwd rev n).length = 2 * n ∧
    ∀ i : Nat, i < n →
      (interleavedWrites fwd rev n).getD (2 * i) "" = recordAt fwd i ∧
      (interleavedWrites fwd rev n).getD (2 * i + 1) "" = recordAt rev i := by
  refine ⟨?_, interleavedWrites_length n fwd rev, fun i hi => interleavedWrites_getD n i fwd rev hi⟩
  unfold interleave_fastq
  rw [interleaveGo_spec n n fwd rev hf hr]
  simp

/-- Witness for C2 at two concrete 2-record mate files. -/
theorem interleave_fastq_pairs_witness :
    interleave_fastq sampleFwd sampleRev =
      .ok ⟨String.join (interleavedWrites sampleFwd sampleRev 2), 2, none⟩ ∧
    (interleavedWrites sampleFwd sampleRev 2).length = 2 * 2 ∧
    ∀ i : Nat, i < 2 →
      (interleavedWrites sampleFwd sampleRev 2).getD (2 * i) "" = recordAt sampleFwd i ∧
      (interleavedWrites sampleFwd sampleRev 2).getD (2 * i + 1) "" = recordAt sampleRev i :=
  interleave_fastq_pairs 2 sampleFwd sampleRev (by decide) (by decide)

/-- C3 counterexample: with mate1 holding 2 records and mate2 holding 3
records, `interleave_fastq` does not signal TruncatedMatePair — the break
on mate1 exhaustion (line 90) fires before the extra mate2 record is ever
examined, and the call succeeds. -/
theorem interleave_extra_mate2_succeeds :
    RecordLines sampleFwd 2 ∧ RecordLines sampleRev3 3 ∧
    interleave_fastq sampleFwd sampleRev3 ≠ .error () := by decide

/-- C3 (amended): on `n1` mate-1 records and `n2` mate-2 records,
`interleave_fastq` signals TruncatedMatePair (the line-91 assertion)
exactly when `n2 < n1`; when `n1 ≤ n2` it succeeds after `n1` pairs,
silently ignoring any extra trailing mate2 records. -/
theorem interleave_fastq_mismatch (n1 n2 : Nat) (fwd rev : List String)
    (hf : RecordLines fwd n1) (hr : RecordLines rev n2) :
    interleave_fastq fwd rev =
      if n2 < n1 then .error ()
      else .ok ⟨String.join (interleavedWrites fwd rev n1), n1, none⟩ := by
  unfold interleave_fastq
  rw [interleaveGo_spec n1 n2 fwd rev hf hr]
  by_cases h : n2 < n1 <;> simp [h]

/-- Witness for C3 (amended): 3 mate-1 records vs 2 mate-2 records fails;
2 mate-1 records vs 3 mate-2 records succeeds with 2 pairs. -/
theorem interleave_fastq_mismatch_witness :
    interleave_fastq sampleFwd3 sampleRev = .error () ∧
    interleave_fastq sampleFwd sampleRev3 =
      .ok ⟨String.join (interleavedWrites sampleFwd sampleRev3 2), 2, none⟩ := by
  constructor
  · have h := interleave_fastq_mismatch 3 2 sampleFwd3 sampleRev (by decide) (by decide)
    simpa using h
  · have h := interleave_fastq_mismatch 2 3 sampleFwd sampleRev3 (by decide) (by decide)
    simpa using h

/-- Sample single-record mate-1 lines. -/
def oneRecFwd : List String := ["@x/1\n", "AC\n", "+\n", "II\n"]

/-- Sample single-record mate-2 lines. -/
def oneRecRev : List String := ["@x/2\n", "GT\n", "+\n", "JJ\n"]

/-- C7 counterexample: on a concrete 1-record pair, `interleave_fastq`
logs a pair count of 1 but its return value is `none` (the Python
function has no `return` statement), not the pair count. -/
theorem interleave_fastq_returns_none :
    interleave_fastq oneRecFwd oneRecRev =
      .ok ⟨String.join (interleavedWrites oneRecFwd oneRecRev 1), 1, none⟩ ∧
    InterleaveEffect.ret
      ⟨String.join (interleavedWrites oneRecFwd oneRecRev 1), 1, none⟩ ≠ some 1 := by decide

/-- C7 (amended): `interleave_fastq` logs the number of pairs written
(its own line-97 log statement) and returns `None`; the count is not
returned to the caller. -/
theorem interleave_fastq_logs_not_returns (n1 n2 : Nat) (fwd rev : List String)
    (hf : RecordLines fwd n1) (hr : RecordLines rev n2) (hle : n1 ≤ n2) :
    ∃ eff : InterleaveEffect, interleave_fastq fwd rev = .ok eff ∧
      eff.logged = n1 ∧ eff.ret = none := by
  refine ⟨⟨String.join (interleavedWrites fwd rev n1), n1, none⟩, ?_, rfl, rfl⟩
  unfold interleave_fastq
  rw [interleaveGo_spec n1 n2 fwd rev hf hr]
  have h : ¬ n2 < n1 := by omega
  simp [h]

/-- Witness for C7 (amended) at a concrete 1-record pair. -/
theorem interleave_fastq_logs_not_returns_witness :
    ∃ eff : InterleaveEffect, interleave_fastq oneRecFwd oneRecRev = .ok eff ∧
      eff.logged = 1 ∧ eff.ret = none :=
  interleave_fastq_logs_not_returns 1 1 oneRecFwd oneRecRev (by decide) (by decide)
    (by decide)

/-! ## Command runner (`run_cmds`, lines 31–66)

The child processes are modelled by an oracle `exits : Nat → Nat` giving
the exit code of the `attempt`-th spawn of the command within one
top-level `run_cmds` call (attempt 0 is the original invocation, attempt
`k` the `k`-th retry).  Output capture and logging do not influence the
control flow and are not modelled here. -/

/-- The tail of `run_cmds` after the retry test has failed: lines 62–66.
`elif exitcode != 0 and catchExcept:` logs and returns; otherwise
`assert exitcode == 0` raises an `AssertionError` carrying the exit code
(the CommandFailure) whenever the code is non-zero. -/
def runCmdsCheck (exitcode : Nat) (catchExcept : Bool) : Except Nat Unit :=
  if exitcode ≠ 0 ∧ catchExcept then
    .ok ()
  else if exitcode = 0 then
    .ok ()
  else
    .error exitcode

/-- `run_cmds(commands, retry, catchExcept, stdout)` (lines 31–66).
With `retry = r + 1` the line-58 test `exitcode != 0 and retry > 0`
reduces to `exitcode ≠ 0`, and the line-61 recursive call
`run_cmds(commands, retry=retry - 1)` passes neither `catchExcept` nor
`stdout`, so both revert to their defaults (`False`, `None`).  With
`retry = 0` the test is false and control falls to lines 62–66. -/
def run_cmds (exits : Nat → Nat) : Nat → Nat → Bool → Option String → Except Nat Unit
  | attempt, retry + 1, catchExcept, _stdout =>
    if exits attempt ≠ 0 then
      run_cmds exits (attempt + 1) retry false none
    else
      runCmdsCheck (exits attempt) catchExcept
  | attempt, 0, catchExcept, _stdout =>
    runCmdsCheck (exits attempt) catchExcept

/-- C4: one step of the command runner: on a non-zero exit with retry
budget left it re-invokes with the budget decremented (and default
flags); with no budget left it tolerates the failure exactly when
`catchExcept` is set, else signals the failure carrying the exit code;
on a zero exit it returns normally. -/
theorem run_cmds_step (exits : Nat → Nat) (attempt retry : Nat) (catchExcept : Bool)
    (stdout : Option String) :
    (exits attempt ≠ 0 ∧ retry > 0 →
      run_cmds exits attempt retry catchExcept stdout =
        run_cmds exits (attempt + 1) (retry - 1) false none) ∧
    (exits attempt ≠ 0 ∧ retry = 0 ∧ catchExcept = true →
      run_cmds exits attempt retry catchExcept stdout = .ok ()) ∧
    (exits attempt ≠ 0 ∧ retry = 0 ∧ catchExcept = false →
      run_cmds exits attempt retry catchExcept stdout = .error (exits attempt)) ∧
    (exits attempt = 0 →
      run_cmds exits attempt retry catchExcept stdout = .ok ()) := by
  cases retry with
  | zero =>
    refine ⟨fun h => absurd h.2 (by omega), fun h => ?_, fun h => ?_, fun h => ?_⟩
    · simp [run_cmds, runCmdsCheck, h.1, h.2.2]
    · simp [run_cmds, runCmdsCheck, h.1, h.2.2]
    · simp [run_cmds, runCmdsCheck, h]
  | succ r =>
    refine ⟨fun h => ?_, fun h => absurd h.2.1 (by omega), fun h => absurd h.2.1 (by omega),
      fun h => ?_⟩
    · simp [run_cmds, h.1]
    · simp [run_cmds, runCmdsCheck, h]

/-- The constant exit-code oracle: every attempt exits with code `c`. -/
def exitsAlways (c : Nat) : Nat → Nat := fun _ => c

/-- Witness for C4: each branch exercised at concrete exit codes. -/
theorem run_cmds_step_witness :
    run_cmds (exitsAlways 5) 0 2 true none = run_cmds (exitsAlways 5) 1 1 false none ∧
    run_cmds (exitsAlways 5) 0 0 true none = .ok () ∧
    run_cmds (exitsAlways 5) 0 0 false none = .error 5 ∧
    run_cmds (exitsAlways 0) 0 2 true none = .ok () :=
  ⟨(run_cmds_step (exitsAlways 5) 0 2 true none).1 (by decide),
   (run_cmds_step (exitsAlways 5) 0 0 true none).2.1 (by decide),
   (run_cmds_step (exitsAlways 5) 0 0 false none).2.2.1 (by decide),
   (run_cmds_step (exitsAlways 0) 0 2 true none).2.2.2 (by decide)⟩

/-- C10: when every attempt exits non-zero, a `run_cmds` call with a
positive retry budget ends in a signalled failure even when
`catchExcept` was set on the original call: the line-61 retries pass
`catchExcept = False` (and `stdout = None`), so tolerance is not
preserved and the final attempt's assertion fires, carrying that
attempt's exit code. -/
theorem run_cmds_retry_drops_tolerance (exits : Nat → Nat) (hall : ∀ k, exits k ≠ 0) :
    ∀ (retry attempt : Nat) (catchExcept : Bool) (stdout : Option String), retry > 0 →
      run_cmds exits attempt retry catchExcept stdout = .error (exits (attempt + retry)) := by
  intro retry
  induction retry with
  | zero => intro attempt catchExcept stdout h; omega
  | succ r ih =>
    intro attempt catchExcept stdout _
    have hne := hall attempt
    cases r with
    | zero =>
      simp [run_cmds, runCmdsCheck, hne, hall (attempt + 1)]
    | succ r' =>
      have step : run_cmds exits attempt (r' + 1 + 1) catchExcept stdout =
          run_cmds exits (attempt + 1) (r' + 1) false none := by
        simp [run_cmds, hne]
      rw [step, ih (attempt + 1) false none (by omega)]
      have harith : attempt + 1 + (r' + 1) = attempt + (r' + 1 + 1) := by omega
      rw [harith]

/-- Witness for C10: constant exit code 5, retry budget 3, tolerance
requested — the call still fails with code 5. -/
theorem run_cmds_retry_drops_tolerance_witness :
    run_cmds (exitsAlways 5) 0 3 true none = .error 5 :=
  run_cmds_retry_drops_tolerance (exitsAlways 5) (fun k => Nat.succ_ne_zero 4) 3 0 true none
    (by decide)

/-! ## Fetch orchestrator: per-accession merge (`get_sra`, lines 123–152) -/

/-- The accession-prefixed files present in the workspace after the
`fastq-dump --split-files` run for one accession: the optional
`<acc>_1.fastq` and `<acc>_2.fastq` mate files (as line lists), and any
further accession-prefixed output files (e.g. `<acc>_3.fastq`), as
suffix/line-list pairs. -/
structure AccFiles where
  r1 : Option (List String)
  r2 : Option (List String)
  others : List (String × List String)

/-- Lines 123–152 of `get_sra`, for one accession: the content that ends
up in `<acc>.all.fastq`.  `pairFn` models the external `fastq_pair` tool,
mapping the two raw mate line lists to the two `.paired.fq` line lists.
`Except.error ()` models the line-125 assertion (`<acc>_1.fastq`
missing) and the interleave TruncatedMatePair assertion.  If
`<acc>_2.fastq` exists, `fastq_pair` then `interleave_fastq` run on the
paired files (lines 128–148); otherwise `mv` makes the raw mate-1 file
the joined file (line 152).  `fs.others` is never consulted. -/
def mergeAccession (pairFn : List String → List String → List String × List String)
    (fs : AccFiles) : Except Unit String :=
  match fs.r1 with
  | none => .error ()
  | some l1 =>
    match fs.r2 with
    | some l2 =>
      let p := pairFn l1 l2
      match interleave_fastq p.1 p.2 with
      | .ok eff => .ok eff.output
      | .error e => .error e
    | none => .ok (String.join l1)

/-- One extra accession-prefixed file (`<acc>_3.fastq`), one record. -/
def extraFile : List String := ["@y/3\n", "TT\n", "+\n", "QQ\n"]

/-- Mate-1 lines for the C5 counterexample, one record. -/
def soloFwd : List String := ["@y/1\n", "GG\n", "+\n", "PP\n"]

/-- C5 counterexample: with `<acc>_1.fastq` present, no `<acc>_2.fastq`,
and a further accession-prefixed file `<acc>_3.fastq` present, the merge
step produces exactly the mate-1 content; it does not produce the claimed
concatenation of all accession-prefixed files, whose content would
differ. -/
theorem mergeAccession_ignores_others :
    mergeAccession (fun a b => (a, b)) ⟨some soloFwd, none, [("_3.fastq", extraFile)]⟩ =
      .ok (String.join soloFwd) ∧
    String.join soloFwd ≠ String.join soloFwd ++ String.join extraFile := by decide

/-- C5 (amended): if both mate files exist, `fastq_pair` filters them and
the interleaver merges the resulting paired files into the joined file;
otherwise the mate-1 file alone becomes the joined file — other
accession-prefixed files are ignored, not concatenated. -/
theorem mergeAccession_spec
    (pairFn : List String → List String → List String × List String)
    (fs : AccFiles) (l1 l2 p1 p2 : List String) (n : Nat) (h1 : fs.r1 = some l1) :
    (fs.r2 = some l2 → pairFn l1 l2 = (p1, p2) → RecordLines p1 n → RecordLines p2 n →
      mergeAccession pairFn fs = .ok (String.join (interleavedWrites p1 p2 n))) ∧
    (fs.r2 = none → mergeAccession pairFn fs = .ok (String.join l1)) := by
  constructor
  · intro h2 hp hr1 hr2
    unfold mergeAccession
    rw [h1, h2]
    simp only [hp]
    unfold interleave_fastq
    rw [interleaveGo_spec n n p1 p2 hr1 hr2]
    simp
  · intro h2
    unfold mergeAccession
    rw [h1, h2]

/-- Witness for C5 (amended): both branches at concrete one-record
files (with `fastq_pair` modelled as the identity filter). -/
theorem mergeAccession_spec_witness :
    mergeAccession (fun a b => (a, b)) ⟨some oneRecFwd, some oneRecRev, []⟩ =
      .ok (String.join (interleavedWrites oneRecFwd oneRecRev 1)) ∧
    mergeAccession (fun a b => (a, b)) ⟨some soloFwd, none, [("_3.fastq", extraFile)]⟩ =
      .ok (String.join soloFwd) :=
  ⟨(mergeAccession_spec (fun a b => (a, b)) ⟨some oneRecFwd, some oneRecRev, []⟩
      oneRecFwd oneRecRev oneRecFwd oneRecRev 1 rfl).1 rfl rfl (by decide) (by decide),
   (mergeAccession_spec (fun a b => (a, b)) ⟨some soloFwd, none, [("_3.fastq", extraFile)]⟩
      soloFwd [] [] [] 0 rfl).2 rfl⟩

/-! ## Fetch orchestrator: the accession loop (`get_sra`, lines 100–164)

For claim C9 the loop is modelled at the granularity of the
per-accession joined file: the oracle `merged a` gives the line list of
`<a>.all.fastq` as produced by the download/merge steps for accession
`a` (lines 109–156), and the loop tracks the content of `reads.fastq`
(a file's content being its line list) plus the append/remove events. -/

/-- Workspace file events in the accession loop. -/
inductive FileEvent
  | append (acc : String)
  | removeTmp (acc : String)
  deriving Repr, DecidableEq

/-- Python's `str.split(sep)` for a one-character separator, on a
character list: split at every occurrence, keeping empty segments. -/
def splitOnChar (sep : Char) : List Char → List (List Char)
  | [] => [[]]
  | c :: cs =>
    if c = sep then [] :: splitOnChar sep cs
    else
      match splitOnChar sep cs with
      | [] => [[c]]
      | g :: gs => (c :: g) :: gs

/-- `accession_string.split(",")` (line 108). -/
def pySplitComma (s : String) : List String :=
  (splitOnChar ',' s.toList).map String.mk

/-- The body of the accession loop from line 158 on: append the joined
file's lines to `reads.fastq` (lines 160–162: line-by-line copy in
append mode), then delete the joined file (line 164); recurse over the
remaining accessions in order. -/
def getSraLoop (merged : String → List String) :
    List String → List String → List String × List FileEvent
  | [], content => (content, [])
  | a :: rest, content =>
    let step := getSraLoop merged rest (content ++ merged a)
    (step.1, FileEvent.append a :: FileEvent.removeTmp a :: step.2)

/-- `get_sra(accession_string, temp_folder)` at the accession-loop
granularity: split the accession string on commas (line 108), run the
loop starting from an empty `reads.fastq`. -/
def get_sra (merged : String → List String) (accession_string : String) :
    List String × List FileEvent :=
  getSraLoop merged (pySplitComma accession_string) []

/-- The loop appends each accession's merged lines in order and removes
each joined file right after appending it. -/
theorem getSraLoop_spec (merged : String → List String) (accs : List String) :
    ∀ content : List String,
      getSraLoop merged accs content =
        (content ++ (accs.map merged).flatten,
         accs.flatMap fun a => [FileEvent.append a, FileEvent.removeTmp a]) := by
  induction accs with
  | nil => intro content; simp [getSraLoop]
  | cons a rest ih =>
    intro content
    simp [getSraLoop, ih]

/-- C9: `get_sra` splits the accession argument on commas and processes
the accessions sequentially in input order: the final `reads.fastq` is
the in-order concatenation of the per-accession merged files, and each
per-accession joined file is removed immediately after it is appended. -/
theorem get_sra_appends_in_order (merged : String → List String) (accession_string : String) :
    get_sra merged accession_string =
      (((pySplitComma accession_string).map merged).flatten,
       (pySplitComma accession_string).flatMap
         fun a => [FileEvent.append a, FileEvent.removeTmp a]) := by
  unfold get_sra
  rw [getSraLoop_spec]
  simp

/-! ## Top-level run: the cleanup invariant (`exit_and_clean_up`,
lines 13–28, and `__main__`, lines 226–266)

This model starts right after the workspace directory has been created
(line 206) and runs the pipeline phases under an oracle `fails` saying
which phases raise.  The download (prefetch), extraction (fastq-dump),
pairing/interleave and compression phases all sit inside the single
`try` of lines 232–235 around `get_sra`; cache setup (lines 226–229)
and each publish step (lines 237–262) have their own `try` blocks.  The
two publish steps are structurally identical `try` blocks whether the
destination is S3 (upload) or local (move), so one pair of publish
phases represents either branch. -/

/-- The pipeline phases a failure can be injected at. -/
inductive Phase
  | cacheSetup | download | extract | interleavePh | compress
  | publishData | publishLog
  deriving Repr, DecidableEq

/-- Observable top-level actions of one run. -/
inductive Action
  | run (p : Phase)
  | rmtree
  | exited
  deriving Repr, DecidableEq

/-- `exit_and_clean_up(temp_folder)` (lines 13–28): log the traceback,
`shutil.rmtree(temp_folder)`, `sys.exit(exc_value)`. -/
def exit_and_clean_up : List Action := [Action.rmtree, Action.exited]

/-- The phases executed inside `get_sra` under the single `try` of
lines 232–235, in source order (lines 113–168). -/
def getSraPhases : List Phase := [Phase.download, Phase.extract, Phase.interleavePh, Phase.compress]

/-- Run a phase list sequentially, stopping at the first failing phase;
returns the attempted phases and whether all succeeded. -/
def runPhases (fails : Phase → Bool) : List Phase → List Action × Bool
  | [] => ([], true)
  | p :: ps =>
    if fails p then ([Action.run p], false)
    else
      let rest := runPhases fails ps
      (Action.run p :: rest.1, rest.2)

/-- The two publish `try` blocks (lines 237–262): a failure in either
calls `exit_and_clean_up`; with both succeeding, control reaches the
unconditional cleanup of lines 264–266. -/
def publishRun (fails : Phase → Bool) : List Action :=
  if fails Phase.publishData then Action.run Phase.publishData :: exit_and_clean_up
  else
    Action.run Phase.publishData ::
      (if fails Phase.publishLog then Action.run Phase.publishLog :: exit_and_clean_up
       else [Action.run Phase.publishLog, Action.rmtree])

/-- `__main__` from line 226 on (the workspace already created): the
cache-setup `try` (lines 226–229), the `get_sra` `try` (lines 232–235)
covering download, extraction, interleaving and compression, then the
publish `try` blocks. -/
def mainCleanupRun (fails : Phase → Bool) : List Action :=
  if fails Phase.cacheSetup then Action.run Phase.cacheSetup :: exit_and_clean_up
  else
    Action.run Phase.cacheSetup ::
      (let g := runPhases fails getSraPhases
       g.1 ++ (if g.2 then publishRun fails else exit_and_clean_up))

/-- C1: whatever subset of phases fails — none, or a failure injected at
cache setup, download, extraction, interleaving, compression, or either
publish step — the run deletes the workspace exactly once. -/
theorem mainCleanupRun_rmtree_once (fails : Phase → Bool) :
    (mainCleanupRun fails).count Action.rmtree = 1 := by
  cases h1 : fails Phase.cacheSetup <;>
    cases h2 : fails Phase.download <;>
      cases h3 : fails Phase.extract <;>
        cases h4 : fails Phase.interleavePh <;>
          cases h5 : fails Phase.compress <;>
            cases h6 : fails Phase.publishData <;>
              cases h7 : fails Phase.publishLog <;>
                simp [mainCleanupRun, publishRun, runPhases, getSraPhases, exit_and_clean_up,
                  h1, h2, h3, h4, h5, h6, h7, List.count_cons, List.count_append]

/-! ## Top-level run: argument checks and destination dispatch
(`__main__`, lines 195–266)

This model covers the argument-handling and publish logic of `__main__`
at the granularity of main-level side effects: the output-folder
existence check (lines 199–201), workspace creation (lines 204–206),
cache setup, the `get_sra` call, the publish commands (the exact `argv`
lists of lines 240–241, 247–248, 254 and 260), and the final workspace
deletion (line 266).  Failure injection into the phases is the business
of `mainCleanupRun` above; here every step succeeds, which is the case
claims C6 and C8 speak about. -/

/-- Python's `str.endswith(suffix)`. -/
def pyEndswith (s suffix : String) : Bool :=
  suffix.toList.isSuffixOf s.toList

/-- Python's `str.startswith(pre)`. -/
def pyStartswith (s pre : String) : Bool :=
  pre.toList.isPrefixOf s.toList

/-- One pass of Python's `str.replace(old, new)` with explicit fuel
(one unit per emitted position; `fuel ≥ length of the input` always
suffices because every step consumes at least one character).  Replaces
every non-overlapping occurrence, scanning left to right; `old` is
nonempty at every call site in the source (`".fastq.gz"`, `","`). -/
def pyReplaceGo (old new : List Char) : Nat → List Char → List Char
  | _, [] => []
  | 0, s => s
  | fuel + 1, c :: cs =>
    if old ≠ [] ∧ old.isPrefixOf (c :: cs) then
      new ++ pyReplaceGo old new fuel ((c :: cs).drop old.length)
    else
      c :: pyReplaceGo old new fuel cs

/-- Python's `s.replace(old, new)`. -/
def pyReplace (s old new : String) : String :=
  String.mk (pyReplaceGo old.toList new.toList s.toList.length s.toList)

/-- `"/".join(parts)`. -/
def joinSlash : List String → String
  | [] => ""
  | [x] => x
  | x :: xs => x ++ "/" ++ joinSlash xs

/-- `"/".join(args.output_path.split("/")[:-1])` (line 200): the parent
folder of the destination path. -/
def outputFolderOf (output_path : String) : String :=
  joinSlash (((splitOnChar '/' output_path.toList).map String.mk).dropLast)

/-- `args.output_path.replace(".fastq.gz", ".log")` (lines 248 and 260):
the destination of the run log. -/
def logDestination (output_path : String) : String :=
  pyReplace output_path ".fastq.gz" ".log"

/-- `local_fp` as returned by `get_sra` (lines 104, 168–169):
`os.path.join(temp_folder, "reads.fastq")` plus the `".gz"` added by
`pigz`. -/
def localFp (temp_folder : String) : String :=
  temp_folder ++ "/reads.fastq.gz"

/-- `log_fp` (line 209):
`os.path.join(temp_folder, args.accession.replace(",", "_") + ".log")`. -/
def logFp (temp_folder accession : String) : String :=
  temp_folder ++ "/" ++ pyReplace accession "," "_" ++ ".log"

/-- The caller-visible inputs of one `__main__` run. -/
structure MainEnv where
  /-- `args.output_path`. -/
  output_path : String
  /-- `args.accession`. -/
  accession : String
  /-- `os.path.join(args.temp_folder, str(uuid.uuid4())[:8])` (line 204). -/
  temp_folder : String
  /-- `os.path.exists(output_folder)` (line 201). -/
  parentExists : Bool

/-- Main-level side effects of `__main__`. -/
inductive MainAct
  /-- The existence check of the destination's parent folder (line 201). -/
  | checkOutputFolder (folder : String)
  /-- `os.mkdir(temp_folder)` (line 206). -/
  | mkWorkspace (dir : String)
  /-- `set_up_sra_cache_folder(temp_folder)` (line 227). -/
  | setupCache
  /-- `get_sra(args.accession, temp_folder)` (line 233). -/
  | fetch (accession : String)
  /-- A `run_cmds` invocation with the given argv (lines 240, 247, 254, 260). -/
  | cmd (argv : List String)
  /-- `shutil.rmtree(temp_folder)` (line 266). -/
  | rmtreeWs
  deriving Repr, DecidableEq

/-- `__main__` (lines 195–266) with all phases succeeding: the performed
main-level actions in order, and `some message` when an argument assert
aborts the run first. -/
def mainTrace (env : MainEnv) : List MainAct × Option String :=
  if pyEndswith env.output_path ".fastq.gz" = false then
    ([], some "output_path must end with .fastq.gz")
  else if pyStartswith env.output_path "s3://" = false ∧ env.parentExists = false then
    ([MainAct.checkOutputFolder (outputFolderOf env.output_path)],
     some "Output folder does not exist")
  else
    let checkActs :=
      if pyStartswith env.output_path "s3://" then []
      else [MainAct.checkOutputFolder (outputFolderOf env.output_path)]
    let publishActs :=
      if pyStartswith env.output_path "s3://" then
        [MainAct.cmd ["aws", "s3", "cp", "--sse", "AES256",
           localFp env.temp_folder, env.output_path],
         MainAct.cmd ["aws", "s3", "cp", "--sse", "AES256",
           logFp env.temp_folder env.accession, logDestination env.output_path]]
      else
        [MainAct.cmd ["mv", localFp env.temp_folder, env.output_path],
         MainAct.cmd ["mv", logFp env.temp_folder env.accession,
           logDestination env.output_path]]
    (checkActs ++
       [MainAct.mkWorkspace env.temp_folder, MainAct.setupCache,
        MainAct.fetch env.accession] ++
       publishActs ++ [MainAct.rmtreeWs], none)

/-- C6: the destination dispatch of `__main__` is decided by the
`args.output_path.startswith("s3://")` URI-scheme check: with an
`s3://` destination both the compressed file and the log are uploaded
via `aws s3 cp --sse AES256` (server-side encryption requested), no
local move occurs, and no parent-folder check runs; with a local
destination both files are moved with `mv`, and the destination's
parent folder is checked for existence as the very first action,
before the workspace is created — with a missing parent aborting the
run right there. -/
theorem main_destination_dispatch (env : MainEnv)
    (hsuf : pyEndswith env.output_path ".fastq.gz" = true) :
    (pyStartswith env.output_path "s3://" = true →
      mainTrace env =
        ([MainAct.mkWorkspace env.temp_folder, MainAct.setupCache,
          MainAct.fetch env.accession,
          MainAct.cmd ["aws", "s3", "cp", "--sse", "AES256",
            localFp env.temp_folder, env.output_path],
          MainAct.cmd ["aws", "s3", "cp", "--sse", "AES256",
            logFp env.temp_folder env.accession, logDestination env.output_path],
          MainAct.rmtreeWs], none) ∧
      (∀ src dst : String, MainAct.cmd ["mv", src, dst] ∉ (mainTrace env).1) ∧
      (∀ dir : String, MainAct.checkOutputFolder dir ∉ (mainTrace env).1)) ∧
    (pyStartswith env.output_path "s3://" = false → env.parentExists = true →
      mainTrace env =
        ([MainAct.checkOutputFolder (outputFolderOf env.output_path),
          MainAct.mkWorkspace env.temp_folder, MainAct.setupCache,
          MainAct.fetch env.accession,
          MainAct.cmd ["mv", localFp env.temp_folder, env.output_path],
          MainAct.cmd ["mv", logFp env.temp_folder env.accession,
            logDestination env.output_path],
          MainAct.rmtreeWs], none)) ∧
    (pyStartswith env.output_path "s3://" = false → env.parentExists = false →
      mainTrace env =
        ([MainAct.checkOutputFolder (outputFolderOf env.output_path)],
         some "Output folder does not exist")) := by
  refine ⟨fun hs3 => ⟨?_, ?_, ?_⟩, fun hs3 hpe => ?_, fun hs3 hpe => ?_⟩
  · simp [mainTrace, hsuf, hs3]
  · intro src dst
    simp [mainTrace, hsuf, hs3]
  · intro dir
    simp [mainTrace, hsuf, hs3]
  · simp [mainTrace, hsuf, hs3, hpe]
  · simp [mainTrace, hsuf, hs3, hpe]

/-- Witness for C6: a concrete S3 destination and a concrete local
destination, with the instantiated traces. -/
theorem main_destination_dispatch_witness :
    mainTrace ⟨"s3://b/x.fastq.gz", "SRR9", "/share/ws1", true⟩ =
      ([MainAct.mkWorkspace "/share/ws1", MainAct.setupCache, MainAct.fetch "SRR9",
        MainAct.cmd ["aws", "s3", "cp", "--sse", "AES256",
          localFp "/share/ws1", "s3://b/x.fastq.gz"],
        MainAct.cmd ["aws", "s3", "cp", "--sse", "AES256",
          logFp "/share/ws1" "SRR9", logDestination "s3://b/x.fastq.gz"],
        MainAct.rmtreeWs], none) ∧
    mainTrace ⟨"/out/x.fastq.gz", "SRR9", "/share/ws1", true⟩ =
      ([MainAct.checkOutputFolder (outputFolderOf "/out/x.fastq.gz"),
        MainAct.mkWorkspace "/share/ws1", MainAct.setupCache, MainAct.fetch "SRR9",
        MainAct.cmd ["mv", localFp "/share/ws1", "/out/x.fastq.gz"],
        MainAct.cmd ["mv", logFp "/share/ws1" "SRR9", logDestination "/out/x.fastq.gz"],
        MainAct.rmtreeWs], none) :=
  ⟨((main_destination_dispatch ⟨"s3://b/x.fastq.gz", "SRR9", "/share/ws1", true⟩
      (by decide)).1 (by decide)).1,
   (main_destination_dispatch ⟨"/out/x.fastq.gz", "SRR9", "/share/ws1", true⟩
      (by decide)).2.1 (by decide) rfl⟩

/-- C8 counterexample: the destination "/data/x.fastq.gz.fastq.gz" ends
with ".fastq.gz", yet the derived log destination replaces every
occurrence of ".fastq.gz" (Python `str.replace`), producing
"/data/x.log.log" rather than the suffix-replacement
"/data/x.fastq.gz.log". -/
theorem logDestination_not_suffix_replacement :
    pyEndswith "/data/x.fastq.gz.fastq.gz" ".fastq.gz" = true ∧
    logDestination "/data/x.fastq.gz.fastq.gz" = "/data/x.log.log" ∧
    "/data/x.log.log" ≠ "/data/x.fastq.gz.log" := by decide

/-- C8 (amended): if the destination does not end with ".fastq.gz" the
line-196 assert aborts the run before any main-level action — no parent
check, no workspace creation, no file write, no external command (in
particular a bare directory path is rejected); and every run that
reaches publishing sends the log to `logDestination`, which replaces
every occurrence of ".fastq.gz" with ".log" (this coincides with suffix
replacement exactly when ".fastq.gz" occurs only as the suffix). -/
theorem main_requires_fastq_gz (env : MainEnv) :
    (pyEndswith env.output_path ".fastq.gz" = false →
      mainTrace env = ([], some "output_path must end with .fastq.gz")) ∧
    ((mainTrace env).2 = none →
      ∃ tool src, MainAct.cmd (tool ++ [src, logDestination env.output_path]) ∈
        (mainTrace env).1) := by
  constructor
  · intro h
    simp [mainTrace, h]
  · intro h
    by_cases hsuf : pyEndswith env.output_path ".fastq.gz" = false
    · simp [mainTrace, hsuf] at h
    rw [Bool.not_eq_false] at hsuf
    by_cases hs3 : pyStartswith env.output_path "s3://" = true
    · refine ⟨["aws", "s3", "cp", "--sse", "AES256"],
        logFp env.temp_folder env.accession, ?_⟩
      simp [mainTrace, hsuf, hs3]
    rw [Bool.not_eq_true] at hs3
    by_cases hpe : env.parentExists = true
    · refine ⟨["mv"], logFp env.temp_folder env.accession, ?_⟩
      simp [mainTrace, hsuf, hs3, hpe]
    rw [Bool.not_eq_true] at hpe
    simp [mainTrace, hsuf, hs3, hpe] at h

/-- Witness for C8 (amended): the bare directory path "/local/out" is
rejected with no actions performed; a valid S3 destination publishes its
log to the derived log destination. -/
theorem main_requires_fastq_gz_witness :
    mainTrace ⟨"/local/out", "SRR9", "/share/ws1", true⟩ =
      ([], some "output_path must end with .fastq.gz") ∧
    ∃ tool src, MainAct.cmd (tool ++ [src, logDestination "s3://b/x.fastq.gz"]) ∈
      (mainTrace ⟨"s3://b/x.fastq.gz", "SRR9", "/share/ws1", true⟩).1 :=
  ⟨(main_requires_fastq_gz ⟨"/local/out", "SRR9", "/share/ws1", true⟩).1 (by decide),
   (main_requires_fastq_gz ⟨"s3://b/x.fastq.gz", "SRR9", "/share/ws1", true⟩).2 (by decide)⟩

end GetSRA
